import Mathlib

/-!
Verification of the monopoly-service HTTP backend (src/monopolyService.ts).

The service is a thin Express app over a PostgreSQL database. We shallowly
embed its data model and the seven route handlers as pure Lean functions:

* the database is a `DBState` of three row lists (Player, Game, PlayerGame),
  seeded by `setupDatabase`'s fixed script (`seedDB`);
* each handler takes the current state, an optional gateway error (modelling
  a query raising at the driver level) and the raw path parameter string,
  and returns the HTTP `Response` (and the new state for DELETE handlers);
* path parameters are bound as placeholder parameters; PostgreSQL parses a
  parameter compared against an INTEGER column with its integer-literal
  syntax, raising a query error when the text is not an integer
  (`pgParseInt` models that parse);
* `ORDER BY` clauses are modelled with a comparator sort (`sortBy`) on the
  column used by the source query (descending `ORDER BY score DESC` places
  NULL first, as PostgreSQL does);
* the statements each handler submits to the gateway are mirrored by
  `...Queries` functions returning the SQL text and parameter vector.
-/

namespace MonopolyService

/-- A row of the Player table: SERIAL id, NOT NULL name, nullable email. -/
structure Player where
  id : Int
  name : String
  email : Option String
  deriving DecidableEq

/-- A row of the Game table: SERIAL id, timestamp (encoded as an integer). -/
structure Game where
  id : Int
  time : Int
  deriving DecidableEq

/-- A row of the PlayerGame join table; score is nullable INTEGER. -/
structure PlayerGame where
  gameID : Int
  playerID : Int
  score : Option Int
  deriving DecidableEq

/-- The database state: the three tables as row lists. -/
structure DBState where
  players : List Player
  games : List Game
  playerGames : List PlayerGame
  deriving DecidableEq

/-- A row of the `/games/:id` join result: `P.name, PG.score`. -/
structure NameScore where
  name : String
  score : Option Int
  deriving DecidableEq

/-- JSON bodies the service can send. -/
inductive Body where
  | text (s : String)
  | errorObj (error : String)
  | playersArr (rows : List Player)
  | playerObj (row : Player)
  | gamesArr (rows : List Game)
  | nameScoreArr (rows : List NameScore)
  | deletedPlayer (message : String) (player : Player)
  | deletedGame (message : String) (game : Game)
  deriving DecidableEq

/-- An HTTP response: status code and JSON body. -/
structure Response where
  status : Nat
  body : Body
  deriving DecidableEq

/-- The uniform catch-branch response: `res.status(500).json({ error: 'Internal server error' })`. -/
def serverError : Response := ⟨500, .errorObj "Internal server error"⟩

/-- Whitespace PostgreSQL ignores around an integer literal. -/
def isWs (c : Char) : Bool := c == ' ' || c == '\t' || c == '\n' || c == '\r'

/-- The numeric value of a digit string. -/
def digitsVal (cs : List Char) : Nat :=
  cs.foldl (fun acc c => 10 * acc + (c.toNat - 48)) 0

/-- A nonempty all-digit character list parses to its value. -/
def parseDigits (cs : List Char) : Option Nat :=
  if cs.isEmpty then none
  else if cs.all (fun c => 48 ≤ c.toNat && c.toNat ≤ 57) then some (digitsVal cs)
  else none

/-- Integer-literal syntax on a character list: optional surrounding
whitespace, optional sign, one or more digits. -/
def pgParseIntChars (cs : List Char) : Option Int :=
  match ((cs.dropWhile isWs).reverse.dropWhile isWs).reverse with
  | '-' :: ds => (parseDigits ds).map (fun n => -(n : Int))
  | '+' :: ds => (parseDigits ds).map (fun n => (n : Int))
  | ds => (parseDigits ds).map (fun n => (n : Int))

/-- PostgreSQL integer-literal parse of a text parameter bound against an
INTEGER column. Returns `none` when the parameter would raise
`invalid input syntax for type integer`. -/
def pgParseInt (s : String) : Option Int := pgParseIntChars s.data

/-- Bytewise (C collation) string order, used to model `ORDER BY name`. -/
def charListLe : List Char → List Char → Bool
  | [], _ => true
  | _ :: _, [] => false
  | a :: as, b :: bs =>
    if a.toNat < b.toNat then true
    else if b.toNat < a.toNat then false
    else charListLe as bs

/-- Insert into a sorted list, keeping it sorted by `le`. -/
def orderedInsert {α : Type} (le : α → α → Bool) (a : α) : List α → List α
  | [] => [a]
  | b :: l => if le a b then a :: b :: l else b :: orderedInsert le a l

/-- `ORDER BY` as an insertion sort by a boolean comparator (PostgreSQL
guarantees no particular order among ties, so any comparator-consistent
sort is a faithful model). -/
def sortBy {α : Type} (le : α → α → Bool) : List α → List α
  | [] => []
  | a :: l => orderedInsert le a (sortBy le l)

/-- `ORDER BY name` (ascending) comparator for Player rows. -/
def nameLe (a b : Player) : Bool := charListLe a.name.data b.name.data

/-- `ORDER BY time DESC` comparator for Game rows. -/
def timeDesc (a b : Game) : Bool := decide (b.time ≤ a.time)

/-- `ORDER BY PG.score DESC` comparator; PostgreSQL sorts NULL first in
descending order. -/
def scoreDesc (a b : NameScore) : Bool :=
  match a.score, b.score with
  | none, _ => true
  | some _, none => false
  | some x, some y => decide (y ≤ x)

/-- Handler for `GET /` (no database access). -/
def getRoot : Response := ⟨200, .text "Hello, CS 262 Monopoly service!"⟩

/-- Handler for `GET /players`: `SELECT * FROM Player ORDER BY name`. -/
def getPlayers (s : DBState) (dbErr : Option String) : Response :=
  match dbErr with
  | some _ => serverError
  | none => ⟨200, .playersArr (sortBy nameLe s.players)⟩

/-- Handler for `GET /players/:id`: `SELECT * FROM Player WHERE id = $1`,
404 on zero rows, else `result.rows[0]`. -/
def getPlayerById (s : DBState) (dbErr : Option String) (id : String) : Response :=
  match dbErr with
  | some _ => serverError
  | none =>
    match pgParseInt id with
    | none => serverError
    | some n =>
      match s.players.filter (fun p => p.id == n) with
      | [] => ⟨404, .errorObj "Player not found"⟩
      | r :: _ => ⟨200, .playerObj r⟩

/-- Handler for `DELETE /players/:id`:
`DELETE FROM Player WHERE id = $1 RETURNING *`; the PlayerGame rows of the
player are removed by `ON DELETE CASCADE`. Returns the response and the
resulting database state. -/
def deletePlayerById (s : DBState) (dbErr : Option String) (id : String) :
    Response × DBState :=
  match dbErr with
  | some _ => (serverError, s)
  | none =>
    match pgParseInt id with
    | none => (serverError, s)
    | some n =>
      match s.players.filter (fun p => p.id == n) with
      | [] => (⟨404, .errorObj "Player not found"⟩, s)
      | r :: _ =>
        (⟨200, .deletedPlayer "Player deleted successfully" r⟩,
         { s with
             players := s.players.filter (fun p => p.id != n),
             playerGames := s.playerGames.filter (fun pg => pg.playerID != n) })

/-- Handler for `GET /games`: `SELECT * FROM Game ORDER BY time DESC`. -/
def getGames (s : DBState) (dbErr : Option String) : Response :=
  match dbErr with
  | some _ => serverError
  | none => ⟨200, .gamesArr (sortBy timeDesc s.games)⟩

/-- The (unordered) row set of the `/games/:id` join:
`SELECT P.name, PG.score FROM Player P JOIN PlayerGame PG ON P.id = PG.playerID
WHERE PG.gameID = $1`. -/
def joinRows (s : DBState) (n : Int) : List NameScore :=
  s.playerGames.filterMap (fun pg =>
    if pg.gameID == n then
      (s.players.find? (fun p => p.id == pg.playerID)).map
        (fun p => ⟨p.name, pg.score⟩)
    else none)

/-- Handler for `GET /games/:id`, returning the response together with
whether the secondary existence query
`SELECT * FROM Game WHERE id = $1` was issued. -/
def getGameRun (s : DBState) (dbErr : Option String) (id : String) :
    Response × Bool :=
  match dbErr with
  | some _ => (serverError, false)
  | none =>
    match pgParseInt id with
    | none => (serverError, false)
    | some n =>
      match sortBy scoreDesc (joinRows s n) with
      | [] =>
        match s.games.filter (fun g => g.id == n) with
        | [] => (⟨404, .errorObj "Game not found"⟩, true)
        | _ :: _ => (⟨200, .nameScoreArr []⟩, true)
      | r :: rs => (⟨200, .nameScoreArr (r :: rs)⟩, false)

/-- The response of `GET /games/:id`. -/
def getGameById (s : DBState) (dbErr : Option String) (id : String) : Response :=
  (getGameRun s dbErr id).1

/-- Handler for `DELETE /games/:id`:
`DELETE FROM Game WHERE id = $1 RETURNING *`; the PlayerGame rows of the
game are removed by `ON DELETE CASCADE`. -/
def deleteGameById (s : DBState) (dbErr : Option String) (id : String) :
    Response × DBState :=
  match dbErr with
  | some _ => (serverError, s)
  | none =>
    match pgParseInt id with
    | none => (serverError, s)
    | some n =>
      match s.games.filter (fun g => g.id == n) with
      | [] => (⟨404, .errorObj "Game not found"⟩, s)
      | r :: _ =>
        (⟨200, .deletedGame "Game deleted successfully" r⟩,
         { s with
             games := s.games.filter (fun g => g.id != n),
             playerGames := s.playerGames.filter (fun pg => pg.gameID != n) })

/-- The database state produced by `setupDatabase`'s fixed script: three
players, three games (times in creation order: NOW minus 2 days, NOW minus
1 day, NOW, encoded 0 < 1 < 2) and seven PlayerGame rows. -/
def seedDB : DBState :=
  { players := [⟨1, "Sebastian", some "seb@example.com"⟩,
                ⟨2, "Mr. Monopoly", some "moneybags@example.com"⟩,
                ⟨3, "Thimble", some "thimble@example.com"⟩],
    games := [⟨1, 0⟩, ⟨2, 1⟩, ⟨3, 2⟩],
    playerGames := [⟨1, 1, some 1500⟩, ⟨1, 2, some 2500⟩,
                    ⟨2, 1, some 3200⟩, ⟨2, 2, some 1800⟩, ⟨2, 3, some 500⟩,
                    ⟨3, 2, some 5000⟩, ⟨3, 3, some 4500⟩] }

/-- A statement submitted to the database gateway: SQL text plus the
placeholder-parameter vector (`db.query(text, params)`). -/
structure SQLStmt where
  sql : String
  params : List String
  deriving DecidableEq

/-- The SQL text of `GET /players`. -/
def selectPlayersSQL : String := "SELECT * FROM Player ORDER BY name"

/-- The SQL text of `GET /players/:id`. -/
def selectPlayerByIdSQL : String := "SELECT * FROM Player WHERE id = $1"

/-- The SQL text of `DELETE /players/:id`. -/
def deletePlayerSQL : String := "DELETE FROM Player WHERE id = $1 RETURNING *"

/-- The SQL text of `GET /games`. -/
def selectGamesSQL : String := "SELECT * FROM Game ORDER BY time DESC"

/-- The SQL text of the `GET /games/:id` join query (whitespace normalized). -/
def gameDetailSQL : String :=
  "SELECT P.name, PG.score FROM Player P JOIN PlayerGame PG ON P.id = PG.playerID WHERE PG.gameID = $1 ORDER BY PG.score DESC"

/-- The SQL text of the `GET /games/:id` secondary existence query. -/
def selectGameByIdSQL : String := "SELECT * FROM Game WHERE id = $1"

/-- The SQL text of `DELETE /games/:id`. -/
def deleteGameSQL : String := "DELETE FROM Game WHERE id = $1 RETURNING *"

/-- Statements submitted by `GET /players`. -/
def getPlayersQueries : List SQLStmt := [⟨selectPlayersSQL, []⟩]

/-- Statements submitted by `GET /players/:id`. -/
def getPlayerByIdQueries (id : String) : List SQLStmt :=
  [⟨selectPlayerByIdSQL, [id]⟩]

/-- Statements submitted by `DELETE /players/:id`. -/
def deletePlayerByIdQueries (id : String) : List SQLStmt :=
  [⟨deletePlayerSQL, [id]⟩]

/-- Statements submitted by `GET /games`. -/
def getGamesQueries : List SQLStmt := [⟨selectGamesSQL, []⟩]

/-- Statements submitted by `GET /games/:id`: the join query always; the
existence query only when the join returned zero rows (a failed join query
submits no second statement). -/
def getGameByIdQueries (s : DBState) (id : String) : List SQLStmt :=
  match pgParseInt id with
  | none => [⟨gameDetailSQL, [id]⟩]
  | some n =>
    if sortBy scoreDesc (joinRows s n) = [] then
      [⟨gameDetailSQL, [id]⟩, ⟨selectGameByIdSQL, [id]⟩]
    else [⟨gameDetailSQL, [id]⟩]

/-- Statements submitted by `DELETE /games/:id`. -/
def deleteGameByIdQueries (id : String) : List SQLStmt :=
  [⟨deleteGameSQL, [id]⟩]

/-- Observable startup events of the connect / setup / listen sequence at
the bottom of the source file. -/
inductive StartupEvent where
  | connected
  | connectFailed
  | schemaReady
  | schemaFailed
  | listen
  | exitProcess (code : Nat)
  deriving DecidableEq

/-- The startup sequence:
`db.connect().then(async () => { await setupDatabase(); app.listen(...) }).catch((err) => process.exit(1))`.
A rejection of `db.connect()` or a throw from `setupDatabase()` lands in the
`.catch`, which calls `process.exit(1)`; `app.listen` runs only after both
succeeded. -/
def startupTrace (connectOk schemaOk : Bool) : List StartupEvent :=
  if connectOk then
    if schemaOk then [.connected, .schemaReady, .listen]
    else [.connected, .schemaFailed, .exitProcess 1]
  else [.connectFailed, .exitProcess 1]

/-- The seven routes of the service, with their path parameter. -/
inductive Request where
  | root
  | players
  | playerById (id : String)
  | playerDelete (id : String)
  | games
  | gameById (id : String)
  | gameDelete (id : String)
  deriving DecidableEq

/-- Whether a route is one of the GET endpoints. -/
def Request.isGet : Request → Bool
  | .root => true
  | .players => true
  | .playerById _ => true
  | .playerDelete _ => false
  | .games => true
  | .gameById _ => true
  | .gameDelete _ => false

/-- Dispatch a request against the current database state, producing the
response and the database state seen by the next request. The GET handlers
issue only SELECT statements, so they pass the state through. -/
def serve (s : DBState) (dbErr : Option String) : Request → Response × DBState
  | .root => (getRoot, s)
  | .players => (getPlayers s dbErr, s)
  | .playerById id => (getPlayerById s dbErr id, s)
  | .playerDelete id => deletePlayerById s dbErr id
  | .games => (getGames s dbErr, s)
  | .gameById id => (getGameById s dbErr id, s)
  | .gameDelete id => deleteGameById s dbErr id

/-- Referential integrity of PlayerGame as enforced by the schema's
`REFERENCES Game(id)` / `REFERENCES Player(id)` constraints. -/
def Integrity (s : DBState) : Prop :=
  (∀ pg ∈ s.playerGames, ∃ g ∈ s.games, g.id = pg.gameID) ∧
  (∀ pg ∈ s.playerGames, ∃ p ∈ s.players, p.id = pg.playerID)

/-- Adjacent-pair sortedness under a boolean comparator. -/
def sortedByBool {α : Type} (le : α → α → Bool) : List α → Bool
  | [] => true
  | [_] => true
  | a :: b :: l => le a b && sortedByBool le (b :: l)

/-- A state in which game 1 exists and its only association row has a NULL
score (reachable, e.g., from an `INSERT INTO PlayerGame (gameID, playerID)`
without a score). -/
def nullScoreDB : DBState :=
  { players := [⟨1, "Sebastian", some "seb@example.com"⟩],
    games := [⟨1, 0⟩],
    playerGames := [⟨1, 1, none⟩] }

/-! ### Helper lemmas about the sort and join models -/

theorem length_orderedInsert {α : Type} (le : α → α → Bool) (a : α) (l : List α) :
    (orderedInsert le a l).length = l.length + 1 := by
  induction l with
  | nil => rfl
  | cons b l ih =>
    simp only [orderedInsert]
    split <;> simp [ih]

theorem length_sortBy {α : Type} (le : α → α → Bool) (l : List α) :
    (sortBy le l).length = l.length := by
  induction l with
  | nil => rfl
  | cons a l ih => simp [sortBy, length_orderedInsert, ih]

theorem sortBy_eq_nil_iff {α : Type} (le : α → α → Bool) (l : List α) :
    sortBy le l = [] ↔ l = [] := by
  constructor
  · intro h
    have hl := length_sortBy le l
    rw [h] at hl
    exact List.length_eq_zero.mp hl.symm
  · intro h
    subst h
    rfl

theorem filterMap_if_filter {α β : Type} (p : α → Bool) (f : α → Option β) (l : List α) :
    (l.filterMap fun a => if p a then f a else none) = (l.filter p).filterMap f := by
  induction l with
  | nil => rfl
  | cons a l ih =>
    by_cases h : p a = true
    · simp only [List.filterMap_cons, List.filter_cons, h, if_true]
      cases f a <;> simp [ih]
    · simp [List.filterMap_cons, List.filter_cons, h, ih]

theorem joinRows_eq_filter (s : DBState) (n : Int) :
    joinRows s n =
      (s.playerGames.filter fun pg => pg.gameID == n).filterMap
        (fun pg => (s.players.find? fun p => p.id == pg.playerID).map
          fun p => (⟨p.name, pg.score⟩ : NameScore)) := by
  unfold joinRows
  exact filterMap_if_filter _ _ _

theorem filter_ne_then_eq_nil {α : Type} (f : α → Int) (n : Int) (l : List α) :
    (l.filter (fun a => f a != n)).filter (fun a => f a == n) = [] := by
  rw [List.filter_eq_nil_iff]
  intro a ha
  rw [List.mem_filter] at ha
  simpa using ha.2

theorem joinRows_eq_nil_of_no_game (s : DBState) (n : Int)
    (integ : ∀ pg ∈ s.playerGames, ∃ g ∈ s.games, g.id = pg.gameID)
    (hno : s.games.filter (fun g => g.id == n) = []) :
    joinRows s n = [] := by
  unfold joinRows
  rw [List.filterMap_eq_nil_iff]
  intro pg hpg
  obtain ⟨g, hg, hid⟩ := integ pg hpg
  have hne : pg.gameID ≠ n := by
    intro h
    exact (List.filter_eq_nil_iff.mp hno) g hg (by simp [hid, h])
  simp [hne]

/-! ### Claims -/

/-- C2: the HTTP server begins accepting requests (`listen`) only when, and
only after, both the database connection and the schema-initialization
script succeeded; if either fails the process never listens and terminates
via `process.exit(1)`, a non-zero status. -/
theorem C2_startup_sequencing (c k : Bool) :
    (StartupEvent.listen ∈ startupTrace c k ↔ c = true ∧ k = true) ∧
    (c = true ∧ k = true →
      startupTrace c k = [.connected, .schemaReady, .listen]) ∧
    (¬(c = true ∧ k = true) →
      StartupEvent.listen ∉ startupTrace c k ∧
      StartupEvent.exitProcess 1 ∈ startupTrace c k ∧ (1 : Nat) ≠ 0) := by
  cases c <;> cases k <;> decide

/-- Witness for C2 at a successful startup. -/
theorem C2_startup_sequencing_witness :
    startupTrace true true = [.connected, .schemaReady, .listen] :=
  (C2_startup_sequencing true true).2.1 ⟨rfl, rfl⟩

/-- C4: in the freshly seeded state, `GET /players` returns 200 with exactly
3 rows named Mr. Monopoly, Sebastian, Thimble, sorted ascending by name. -/
theorem C4_players_after_startup :
    ∃ rows : List Player,
      getPlayers seedDB none = ⟨200, .playersArr rows⟩ ∧
      rows.length = 3 ∧
      rows.map Player.name = ["Mr. Monopoly", "Sebastian", "Thimble"] ∧
      sortedByBool nameLe rows = true :=
  ⟨[⟨2, "Mr. Monopoly", some "moneybags@example.com"⟩,
    ⟨1, "Sebastian", some "seb@example.com"⟩,
    ⟨3, "Thimble", some "thimble@example.com"⟩],
   by decide, by decide, by decide, by decide⟩

/-- C5: in the freshly seeded state, `GET /games/1` returns 200 with exactly
the two associations of game 1 joined to player names, ordered by score
descending. -/
theorem C5_game1_detail :
    getGameById seedDB none "1" =
      ⟨200, .nameScoreArr [⟨"Mr. Monopoly", some 2500⟩, ⟨"Sebastian", some 1500⟩]⟩ := by
  decide

/-- C10: a path id that is not an integer literal reaches the database
unvalidated, the query raises, and every id-taking handler answers 500 with
the generic error body — not 404 and not 400. -/
theorem C10_invalid_id_is_500 (s : DBState) (id : String)
    (h : pgParseInt id = none) :
    getPlayerById s none id = serverError ∧
    (deletePlayerById s none id).1 = serverError ∧
    (deletePlayerById s none id).2 = s ∧
    getGameById s none id = serverError ∧
    (deleteGameById s none id).1 = serverError ∧
    (deleteGameById s none id).2 = s ∧
    serverError.status = 500 ∧ serverError.status ≠ 404 ∧ serverError.status ≠ 400 ∧
    serverError.body = .errorObj "Internal server error" := by
  refine ⟨?_, ?_, ?_, ?_, ?_, ?_, rfl, by decide, by decide, rfl⟩ <;>
    simp [getPlayerById, deletePlayerById, getGameById, getGameRun, deleteGameById, h]

/-- Witness for C10 at the id "abc" in the seeded state. -/
theorem C10_invalid_id_is_500_witness :
    getPlayerById seedDB none "abc" = serverError :=
  (C10_invalid_id_is_500 seedDB "abc" (by decide)).1

/-- C3: every database-querying handler maps a query error to a 500 response
whose body is the fixed `{ error: "Internal server error" }` object — the
same response for every error detail `e`, so nothing of the exception is
exposed — and leaves the state unchanged; "not found" is a row-count check
answering 404, not an error path. -/
theorem C3_errors_mapped_to_500 (s : DBState) (e : String) (id : String) :
    (getPlayers s (some e) = serverError ∧
     getPlayerById s (some e) id = serverError ∧
     (deletePlayerById s (some e) id).1 = serverError ∧
     (deletePlayerById s (some e) id).2 = s ∧
     getGames s (some e) = serverError ∧
     getGameById s (some e) id = serverError ∧
     (deleteGameById s (some e) id).1 = serverError ∧
     (deleteGameById s (some e) id).2 = s) ∧
    serverError = ⟨500, .errorObj "Internal server error"⟩ ∧
    (∀ n, pgParseInt id = some n →
      s.players.filter (fun p => p.id == n) = [] →
      getPlayerById s none id = ⟨404, .errorObj "Player not found"⟩ ∧
      (deletePlayerById s none id).1 = ⟨404, .errorObj "Player not found"⟩ ∧
      (deletePlayerById s none id).2 = s) ∧
    (∀ n, pgParseInt id = some n →
      s.games.filter (fun g => g.id == n) = [] →
      (deleteGameById s none id).1 = ⟨404, .errorObj "Game not found"⟩ ∧
      (deleteGameById s none id).2 = s) := by
  refine ⟨⟨rfl, rfl, rfl, rfl, rfl, rfl, rfl, rfl⟩, rfl, ?_, ?_⟩
  · intro n hn hfil
    refine ⟨?_, ?_, ?_⟩ <;> simp [getPlayerById, deletePlayerById, hn, hfil]
  · intro n hn hfil
    refine ⟨?_, ?_⟩ <;> simp [deleteGameById, hn, hfil]

/-- Witness for C3: an erroring query on `GET /players` and the 404 path of
`GET /players/999` in the seeded state. -/
theorem C3_errors_mapped_to_500_witness :
    getPlayers seedDB (some "connection terminated") = serverError ∧
    getPlayerById seedDB none "999" = ⟨404, .errorObj "Player not found"⟩ :=
  ⟨(C3_errors_mapped_to_500 seedDB "connection terminated" "999").1.1,
   ((C3_errors_mapped_to_500 seedDB "x" "999").2.2.1 999 (by decide) (by decide)).1⟩

/-- The statement texts `GET /games/:id` submits form a prefix of the fixed
two-element sequence join query, existence query. -/
theorem getGameByIdQueries_sql_fixed (s : DBState) (id : String) :
    (getGameByIdQueries s id).map SQLStmt.sql <+: [gameDetailSQL, selectGameByIdSQL] := by
  unfold getGameByIdQueries
  cases pgParseInt id with
  | none => exact ⟨[selectGameByIdSQL], rfl⟩
  | some n =>
    dsimp only
    by_cases h : sortBy scoreDesc (joinRows s n) = []
    · rw [if_pos h]
      exact ⟨[], rfl⟩
    · rw [if_neg h]
      exact ⟨[selectGameByIdSQL], rfl⟩

/-- Every statement `GET /games/:id` submits carries the raw id as its one
placeholder parameter. -/
theorem getGameByIdQueries_params (s : DBState) (id : String) :
    ∀ q ∈ getGameByIdQueries s id, q.params = [id] := by
  unfold getGameByIdQueries
  cases pgParseInt id with
  | none =>
    intro q hq
    rw [List.mem_singleton] at hq
    subst hq
    rfl
  | some n =>
    dsimp only
    by_cases h : sortBy scoreDesc (joinRows s n) = []
    · rw [if_pos h]
      intro q hq
      simp only [List.mem_cons, List.mem_singleton, List.not_mem_nil, or_false] at hq
      rcases hq with rfl | rfl <;> rfl
    · rw [if_neg h]
      intro q hq
      rw [List.mem_singleton] at hq
      subst hq
      rfl

/-- C8: for every handler, the SQL text submitted to the gateway is a fixed
constant (for `GET /games/:id`, a prefix of a fixed two-statement sequence),
independent of the request id and of the database state; the user-supplied
id travels only in the placeholder-parameter vector. -/
theorem C8_sql_text_constant (s t : DBState) (id jd : String) :
    (getPlayersQueries.map SQLStmt.sql = [selectPlayersSQL] ∧
      ∀ q ∈ getPlayersQueries, q.params = []) ∧
    ((getPlayerByIdQueries id).map SQLStmt.sql = [selectPlayerByIdSQL] ∧
      ∀ q ∈ getPlayerByIdQueries id, q.params = [id]) ∧
    ((deletePlayerByIdQueries id).map SQLStmt.sql = [deletePlayerSQL] ∧
      ∀ q ∈ deletePlayerByIdQueries id, q.params = [id]) ∧
    (getGamesQueries.map SQLStmt.sql = [selectGamesSQL] ∧
      ∀ q ∈ getGamesQueries, q.params = []) ∧
    ((getGameByIdQueries s id).map SQLStmt.sql <+: [gameDetailSQL, selectGameByIdSQL] ∧
      (getGameByIdQueries t jd).map SQLStmt.sql <+: [gameDetailSQL, selectGameByIdSQL] ∧
      ∀ q ∈ getGameByIdQueries s id, q.params = [id]) ∧
    ((deleteGameByIdQueries id).map SQLStmt.sql = [deleteGameSQL] ∧
      ∀ q ∈ deleteGameByIdQueries id, q.params = [id]) := by
  refine ⟨⟨rfl, ?_⟩, ⟨rfl, ?_⟩, ⟨rfl, ?_⟩, ⟨rfl, ?_⟩,
    ⟨getGameByIdQueries_sql_fixed s id, getGameByIdQueries_sql_fixed t jd,
     getGameByIdQueries_params s id⟩, ⟨rfl, ?_⟩⟩ <;>
    · intro q hq
      simp only [getPlayersQueries, getPlayerByIdQueries, deletePlayerByIdQueries,
        getGamesQueries, deleteGameByIdQueries, List.mem_singleton] at hq
      subst hq
      rfl

/-- Witness for C8 at two distinct ids in the seeded state. -/
theorem C8_sql_text_constant_witness :
    (getGameByIdQueries seedDB "1").map SQLStmt.sql <+: [gameDetailSQL, selectGameByIdSQL] :=
  (C8_sql_text_constant seedDB seedDB "1" "999").2.2.2.2.1.1

/-- C1: with the schema's referential integrity, `GET /games/:id` answers
404 (with an error body) exactly when no Game row with that id exists; when
the game exists but the join is empty it answers 200 with an empty array;
and the secondary existence query runs only when the join returned zero
rows. -/
theorem C1_game_detail_404_iff (s : DBState) (id : String) (n : Int)
    (hn : pgParseInt id = some n)
    (integ : Integrity s) :
    ((getGameById s none id).status = 404 ↔
      s.games.filter (fun g => g.id == n) = []) ∧
    ((getGameById s none id).status = 404 →
      getGameById s none id = ⟨404, .errorObj "Game not found"⟩) ∧
    (s.games.filter (fun g => g.id == n) ≠ [] → joinRows s n = [] →
      getGameById s none id = ⟨200, .nameScoreArr []⟩) ∧
    ((getGameRun s none id).2 = true → joinRows s n = []) := by
  rcases hrows : sortBy scoreDesc (joinRows s n) with _ | ⟨r, rs⟩
  · have hjoin : joinRows s n = [] := (sortBy_eq_nil_iff scoreDesc _).mp hrows
    rcases hfil : s.games.filter (fun g => g.id == n) with _ | ⟨g, gs⟩
    · have hresp : getGameById s none id = ⟨404, .errorObj "Game not found"⟩ := by
        simp [getGameById, getGameRun, hn, hrows, hfil]
      refine ⟨?_, ?_, ?_, ?_⟩
      · rw [hresp, hfil]
        simp
      · intro _
        exact hresp
      · intro hne _
        exact absurd hfil hne
      · intro _
        exact hjoin
    · have hresp : getGameById s none id = ⟨200, .nameScoreArr []⟩ := by
        simp [getGameById, getGameRun, hn, hrows, hfil]
      refine ⟨?_, ?_, ?_, ?_⟩
      · rw [hresp, hfil]
        simp
      · intro h
        rw [hresp] at h
        simp at h
      · intro _ _
        exact hresp
      · intro _
        exact hjoin
  · have hjoin : joinRows s n ≠ [] := by
      intro h
      rw [h] at hrows
      simp [sortBy] at hrows
    have hfil : s.games.filter (fun g => g.id == n) ≠ [] := by
      intro hno
      exact hjoin (joinRows_eq_nil_of_no_game s n integ.1 hno)
    have hresp : getGameById s none id = ⟨200, .nameScoreArr (r :: rs)⟩ := by
      simp [getGameById, getGameRun, hn, hrows]
    have hrun2 : (getGameRun s none id).2 = false := by
      simp [getGameRun, hn, hrows]
    refine ⟨?_, ?_, ?_, ?_⟩
    · rw [hresp]
      simp [hfil]
    · intro h
      rw [hresp] at h
      simp at h
    · intro _ hj
      exact absurd hj hjoin
    · intro h
      rw [hrun2] at h
      simp at h

/-- Witness for C1 at the unknown id 999 in the seeded state. -/
theorem C1_game_detail_404_iff_witness :
    (getGameById seedDB none "999").status = 404 ↔
      seedDB.games.filter (fun g => g.id == (999 : Int)) = [] :=
  (C1_game_detail_404_iff seedDB "999" 999 (by decide) ⟨by decide, by decide⟩).1

/-- C6 counterexample: in the seeded state (a reachable state) with id 999,
the first `DELETE /players/999` already answers 404, so the claimed
"200 followed by 404 for every id" fails for absent ids. -/
theorem C6_counterexample_delete_absent_id :
    (deletePlayerById seedDB none "999").1.status = 404 ∧
    ¬((deletePlayerById seedDB none "999").1.status = 200 ∧
      (deletePlayerById (deletePlayerById seedDB none "999").2 none "999").1.status = 404) := by
  decide

/-- C6 amended: every GET handler leaves the database state unchanged, and
for every id of a row present in the state, two consecutive DELETE calls
answer 200 then 404, the second call leaving the state unchanged. -/
theorem C6_gets_pure_deletes_once (s : DBState) (e : Option String) (r : Request)
    (id : String) (n : Int)
    (hget : r.isGet = true) (hn : pgParseInt id = some n) :
    (serve s e r).2 = s ∧
    ((∃ p ∈ s.players, p.id = n) →
      (deletePlayerById s none id).1.status = 200 ∧
      (deletePlayerById (deletePlayerById s none id).2 none id).1.status = 404 ∧
      (deletePlayerById (deletePlayerById s none id).2 none id).2 =
        (deletePlayerById s none id).2) ∧
    ((∃ g ∈ s.games, g.id = n) →
      (deleteGameById s none id).1.status = 200 ∧
      (deleteGameById (deleteGameById s none id).2 none id).1.status = 404 ∧
      (deleteGameById (deleteGameById s none id).2 none id).2 =
        (deleteGameById s none id).2) := by
  refine ⟨?_, ?_, ?_⟩
  · cases r <;> first | rfl | simp [Request.isGet] at hget
  · rintro ⟨p, hp, hpid⟩
    have hne : s.players.filter (fun q => q.id == n) ≠ [] := by
      intro hnil
      have := List.filter_eq_nil_iff.mp hnil p hp
      simp [hpid] at this
    rcases hcons : s.players.filter (fun q => q.id == n) with _ | ⟨q, qs⟩
    · exact absurd hcons hne
    · have h1 : deletePlayerById s none id =
          (⟨200, .deletedPlayer "Player deleted successfully" q⟩,
           { s with
               players := s.players.filter (fun a => a.id != n),
               playerGames := s.playerGames.filter (fun pg => pg.playerID != n) }) := by
        simp [deletePlayerById, hn, hcons]
      have h2 : deletePlayerById (deletePlayerById s none id).2 none id =
          (⟨404, .errorObj "Player not found"⟩, (deletePlayerById s none id).2) := by
        rw [h1]
        simp [deletePlayerById, hn, filter_ne_then_eq_nil Player.id n s.players]
      rw [h2, h1]
      exact ⟨rfl, rfl, rfl⟩
  · rintro ⟨g, hg, hgid⟩
    have hne : s.games.filter (fun q => q.id == n) ≠ [] := by
      intro hnil
      have := List.filter_eq_nil_iff.mp hnil g hg
      simp [hgid] at this
    rcases hcons : s.games.filter (fun q => q.id == n) with _ | ⟨q, qs⟩
    · exact absurd hcons hne
    · have h1 : deleteGameById s none id =
          (⟨200, .deletedGame "Game deleted successfully" q⟩,
           { s with
               games := s.games.filter (fun a => a.id != n),
               playerGames := s.playerGames.filter (fun pg => pg.gameID != n) }) := by
        simp [deleteGameById, hn, hcons]
      have h2 : deleteGameById (deleteGameById s none id).2 none id =
          (⟨404, .errorObj "Game not found"⟩, (deleteGameById s none id).2) := by
        rw [h1]
        simp [deleteGameById, hn, filter_ne_then_eq_nil Game.id n s.games]
      rw [h2, h1]
      exact ⟨rfl, rfl, rfl⟩

/-- Witness for C6 amended: a GET leaves the seeded state unchanged and a
first DELETE of the present player 1 answers 200. -/
theorem C6_gets_pure_deletes_once_witness :
    (serve seedDB none Request.players).2 = seedDB ∧
    (deletePlayerById seedDB none "1").1.status = 200 := by
  have h := C6_gets_pure_deletes_once seedDB none Request.players "1" 1 (by decide) (by decide)
  exact ⟨h.1, (h.2.1 ⟨⟨1, "Sebastian", some "seb@example.com"⟩, by decide, rfl⟩).1⟩

/-- C7: deleting an existing game removes exactly its Game row and exactly
the PlayerGame rows with that gameID, leaves all Player rows and all other
rows unchanged, and a subsequent `GET /games/:id` answers 404. -/
theorem C7_delete_game_frame (s : DBState) (id : String) (n : Int)
    (hn : pgParseInt id = some n)
    (hex : ∃ g ∈ s.games, g.id = n) :
    (deleteGameById s none id).1.status = 200 ∧
    (deleteGameById s none id).2.players = s.players ∧
    (deleteGameById s none id).2.games = s.games.filter (fun g => g.id != n) ∧
    (deleteGameById s none id).2.playerGames =
      s.playerGames.filter (fun pg => pg.gameID != n) ∧
    (∀ g, g ∈ (deleteGameById s none id).2.games ↔ (g ∈ s.games ∧ g.id ≠ n)) ∧
    (∀ pg, pg ∈ (deleteGameById s none id).2.playerGames ↔
      (pg ∈ s.playerGames ∧ pg.gameID ≠ n)) ∧
    getGameById (deleteGameById s none id).2 none id = ⟨404, .errorObj "Game not found"⟩ := by
  obtain ⟨g0, hg0, hg0id⟩ := hex
  have hne : s.games.filter (fun g => g.id == n) ≠ [] := by
    intro hnil
    have := List.filter_eq_nil_iff.mp hnil g0 hg0
    simp [hg0id] at this
  rcases hcons : s.games.filter (fun g => g.id == n) with _ | ⟨g1, gs⟩
  · exact absurd hcons hne
  have h1 : deleteGameById s none id =
      (⟨200, .deletedGame "Game deleted successfully" g1⟩,
       { s with
           games := s.games.filter (fun a => a.id != n),
           playerGames := s.playerGames.filter (fun pg => pg.gameID != n) }) := by
    simp [deleteGameById, hn, hcons]
  rw [h1]
  have hjr : joinRows
      { s with
          games := s.games.filter (fun a => a.id != n),
          playerGames := s.playerGames.filter (fun pg => pg.gameID != n) } n = [] := by
    rw [joinRows_eq_filter]
    rw [show ({ s with
          games := s.games.filter (fun a => a.id != n),
          playerGames := s.playerGames.filter (fun pg => pg.gameID != n) } :
        DBState).playerGames = s.playerGames.filter (fun pg => pg.gameID != n) from rfl]
    rw [filter_ne_then_eq_nil PlayerGame.gameID n s.playerGames]
    rfl
  have hfg : (s.games.filter (fun a => a.id != n)).filter (fun g => g.id == n) = [] :=
    filter_ne_then_eq_nil Game.id n s.games
  refine ⟨rfl, rfl, rfl, rfl, ?_, ?_, ?_⟩
  · intro g
    simp [List.mem_filter]
  · intro pg
    simp [List.mem_filter]
  · simp [getGameById, getGameRun, hn, hjr, sortBy, hfg]

/-- Witness for C7 at game 2 in the seeded state. -/
theorem C7_delete_game_frame_witness :
    (deleteGameById seedDB none "2").1.status = 200 ∧
    getGameById (deleteGameById seedDB none "2").2 none "2" =
      ⟨404, .errorObj "Game not found"⟩ := by
  have h := C7_delete_game_frame seedDB "2" 2 (by decide) ⟨⟨2, 1⟩, by decide, rfl⟩
  exact ⟨h.1, h.2.2.2.2.2.2⟩

/-- C9: a game whose only association row has a NULL score is reported by
`GET /games/:id` as 200 with a non-empty array containing that player with a
null score; and (under the player-side join totality) the empty-array answer
occurs only when the game has zero association rows. -/
theorem C9_null_score_included (s : DBState) (id : String) (n : Int)
    (pg : PlayerGame) (p : Player)
    (hn : pgParseInt id = some n)
    (hrows : s.playerGames.filter (fun q => q.gameID == n) = [pg])
    (hscore : pg.score = none)
    (hfind : s.players.find? (fun q => q.id == pg.playerID) = some p) :
    getGameById s none id = ⟨200, .nameScoreArr [⟨p.name, none⟩]⟩ ∧
    (⟨200, .nameScoreArr [⟨p.name, none⟩]⟩ : Response) ≠ ⟨200, .nameScoreArr []⟩ ∧
    (∀ (t : DBState) (jd : String) (m : Int), pgParseInt jd = some m →
      (∀ q ∈ t.playerGames, q.gameID = m →
        (t.players.find? fun pl => pl.id == q.playerID).isSome = true) →
      getGameById t none jd = ⟨200, .nameScoreArr []⟩ →
      t.playerGames.filter (fun q => q.gameID == m) = []) := by
  have hjr : joinRows s n = [⟨p.name, none⟩] := by
    rw [joinRows_eq_filter, hrows]
    simp [List.filterMap_cons, hfind, hscore]
  refine ⟨?_, by simp, ?_⟩
  · simp [getGameById, getGameRun, hn, hjr, sortBy, orderedInsert]
  · intro t jd m hm hfindall hresp
    rcases hrows2 : sortBy scoreDesc (joinRows t m) with _ | ⟨r, rs⟩
    · have hjr2 : joinRows t m = [] := (sortBy_eq_nil_iff _ _).mp hrows2
      rw [joinRows_eq_filter, List.filterMap_eq_nil_iff] at hjr2
      rw [List.filter_eq_nil_iff]
      intro q hq hqn
      have hqmem : q ∈ t.playerGames.filter (fun q => q.gameID == m) :=
        List.mem_filter.mpr ⟨hq, hqn⟩
      have hnone := hjr2 q hqmem
      have hsome := hfindall q hq (by simpa using hqn)
      rcases ho : t.players.find? (fun pl => pl.id == q.playerID) with _ | pl
      · rw [ho] at hsome
        simp at hsome
      · rw [ho] at hnone
        simp at hnone
    · have hr : getGameById t none jd = ⟨200, .nameScoreArr (r :: rs)⟩ := by
        simp [getGameById, getGameRun, hm, hrows2]
      rw [hr] at hresp
      simp at hresp

/-- Witness for C9 in a state whose game 1 has one NULL-score row. -/
theorem C9_null_score_included_witness :
    getGameById nullScoreDB none "1" = ⟨200, .nameScoreArr [⟨"Sebastian", none⟩]⟩ :=
  (C9_null_score_included nullScoreDB "1" 1 ⟨1, 1, none⟩
    ⟨1, "Sebastian", some "seb@example.com"⟩
    (by decide) (by decide) rfl (by decide)).1

end MonopolyService
